import Mathlib

/-!
Verification of the CanAirIO firmware coordination layer (src/src/main.cpp).

We shallowly embed the orchestration logic of `main.cpp` as pure Lean
functions.  Side-effecting calls to the collaborator subsystems (display,
configuration store, sensor hub, radios, watchdog) are reified as values of
an inductive `Call` type, and each embedded function returns the ordered
list of calls it performs together with its successor state.  External
inputs (sensor readings, hardware-detection outcome, radio link state) are
collected in an `Env` record that parametrises the run.
-/

namespace CanAirIO

/-- Arduino `String(bool)` renders a boolean as 1 or 0. -/
def boolString (b : Bool) : String := if b then "1" else "0"

/-- One reified call from `main.cpp` to a collaborator subsystem, in the
order the source performs them.  Constructor names follow the callee names
in the source. -/
inductive Call where
  | serialBegin (baud : Nat)
  | serialPrint (s : String)
  | serialPrintln (s : String)
  | delayMs (ms : Nat)
  | cfgInit (ns : String)
  | cfgWifiEnable (enable : Bool)
  | cfgReload
  | cfgSaveSampleTime (t : Int)
  | cfgSaveBrightness (v : Int)
  | cfgColorsInvertedEnable (enable : Bool)
  | guiDisplaySensorLiveIcon
  | guiSetSensorData (mainValue : Nat) (charge : Nat) (humi : ℚ) (temp : ℚ)
      (rssi : Int) (deviceType : Int)
  | guiSetBrightness (v : Int)
  | guiSetWifiMode (b : Bool)
  | guiSetSampleTime (t : Int)
  | guiDisplayInit
  | guiSetCallbacks
  | guiShowWelcome
  | guiWelcomeAddMessage (msg : String)
  | guiShowMain
  | guiSetGUIStatusFlags (wifiOn sensorsOk bleOn : Bool)
  | pinModeOutput
  | digitalWriteHigh
  | sensorsSetOnDataCallBack
  | sensorsSetOnErrorCallBack
  | sensorsSetSampleTime (t : Int)
  | sensorsSetTempOffset (f : ℚ)
  | sensorsDetectI2COnly (b : Bool)
  | sensorsSetDebugMode (b : Bool)
  | sensorsInit (stype : Int)
  | sensorsLoop
  | sensorsSetCO2RecalibrationFactor (f : Int)
  | batteryInit
  | batteryLoop
  | wdInit
  | wdLoop
  | wifiInit
  | wifiLoop
  | wifiStop
  | bleServerInit
  | bleLoop
  | bleServerConfigRefresh
  | influxDbInit
  | influxDbLoop
  | otaLoop
  | deviceReset
deriving DecidableEq, Repr

/-- External inputs of a run: the values the sensor library, the battery
gauge and the radio stacks report back to `main.cpp`.  Humidity and
temperature are modelled over `ℚ`; the source only compares them for
equality with `0.0` and passes them through, so no floating-point
arithmetic is involved. -/
structure Env where
  pm25 : Nat
  co2 : Nat
  humidity : ℚ
  temperature : ℚ
  co2humi : ℚ
  co2temp : ℚ
  deviceType : Int
  chargeLevel : Nat
  wifiRSSI : Int
  pmDetected : Bool
  pmDeviceSelected : String
  wifiConnected : Bool
  bleConnected : Bool
  firmwareVersionCode : String
  version : String
  flavor : String
  target : String
  watchdogTime : Nat
deriving DecidableEq, Repr

/-- Main-value resolution of `refreshGUIData` (main.cpp lines 21-27):
`sensors.getPM25()` when the selected device type is at most 3, otherwise
`sensors.getCO2()`. -/
def mainValueOf (env : Env) : Nat :=
  if env.deviceType ≤ 3 then env.pm25 else env.co2

/-- Humidity resolution of `refreshGUIData` (main.cpp lines 29-30):
`sensors.getHumidity()`, replaced by `sensors.getCO2humi()` when it reads
exactly `0.0`. -/
def resolvedHumidity (env : Env) : ℚ :=
  if env.humidity = 0 then env.co2humi else env.humidity

/-- Temperature resolution of `refreshGUIData` (main.cpp lines 32-33):
`sensors.getTemperature()`, replaced by `sensors.getCO2temp()` when it
reads exactly `0.0`. -/
def resolvedTemperature (env : Env) : ℚ :=
  if env.temperature = 0 then env.co2temp else env.temperature

/-- `refreshGUIData` (main.cpp lines 19-42): resolves the values to surface
and pushes them to the display. -/
def refreshGUIData (env : Env) : List Call :=
  [Call.guiDisplaySensorLiveIcon,
   Call.guiSetSensorData (mainValueOf env) env.chargeLevel
     (resolvedHumidity env) (resolvedTemperature env)
     env.wifiRSSI env.deviceType]

/-- Modelled from the spec: `ConfigApp.hpp` (the ConfigStore) is not under
`src/`; only its callers in `main.cpp` are.  Per the spec, ConfigStore
"loads/persists device configuration", `saveSampleTime`/`setWifiEnabled`/
`saveBrightness`/`setColorsInverted` persist a field, `reload()` refreshes
the loaded view from persisted storage, and all operations are best-effort
and non-failing.  We model a persisted snapshot of the mutable fields next
to the loaded view that the accessors (`cfg.stime`, `isWifiEnable()`, ...)
read. -/
structure ConfigApp where
  persistedStime : Int
  persistedWifiEnabled : Bool
  persistedBrightness : Int
  persistedColorsInverted : Bool
  stime : Int
  wifiEnabled : Bool
  brightness : Int
  colorsInverted : Bool
  toffset : ℚ
  i2conly : Bool
  devmode : Bool
  stype : Int
  deviceId : String
  ssid : String
  ifxEnabled : Bool
deriving DecidableEq, Repr

/-- Modelled from the spec: `cfg.init(namespace)` loads the persisted
settings into the readable view. -/
def ConfigApp.initLoad (c : ConfigApp) : ConfigApp :=
  { c with
    stime := c.persistedStime
    wifiEnabled := c.persistedWifiEnabled
    brightness := c.persistedBrightness
    colorsInverted := c.persistedColorsInverted }

/-- Modelled from the spec: `cfg.reload()` refreshes the loaded view from
persisted storage. -/
def ConfigApp.reload (c : ConfigApp) : ConfigApp :=
  { c with
    stime := c.persistedStime
    wifiEnabled := c.persistedWifiEnabled
    brightness := c.persistedBrightness
    colorsInverted := c.persistedColorsInverted }

/-- Modelled from the spec: `cfg.saveSampleTime(t)` persists the sample
time. -/
def ConfigApp.saveSampleTime (c : ConfigApp) (t : Int) : ConfigApp :=
  { c with persistedStime := t }

/-- Modelled from the spec: `cfg.wifiEnable(b)` persists the wifi-enabled
flag. -/
def ConfigApp.wifiEnable (c : ConfigApp) (b : Bool) : ConfigApp :=
  { c with persistedWifiEnabled := b }

/-- Modelled from the spec: `cfg.saveBrightness(v)` persists the
brightness. -/
def ConfigApp.saveBrightness (c : ConfigApp) (v : Int) : ConfigApp :=
  { c with persistedBrightness := v }

/-- Modelled from the spec: `cfg.colorsInvertedEnable(b)` persists the
colors-inverted flag. -/
def ConfigApp.colorsInvertedEnable (c : ConfigApp) (b : Bool) : ConfigApp :=
  { c with persistedColorsInverted := b }

/-- The sensor-hub state `main.cpp` interacts with: the current sample
time (`sensors.sample_time`, read by the `onSampleTime` guard and written
by `setSampleTime`) and whether hardware detection succeeded
(`isPmSensorConfigured()`, set by `sensors.init`). -/
structure Sensors where
  sample_time : Int
  pmSensorConfigured : Bool
deriving DecidableEq, Repr

/-- The mutable state `main.cpp` threads through the callbacks and the
startup sequence. -/
structure MainState where
  cfg : ConfigApp
  sensors : Sensors
deriving DecidableEq, Repr

/-- `MyGUIUserPreferencesCallbacks::onWifiMode` (main.cpp lines 45-50):
persist the wifi flag, reload, and stop wifi only when disabling. -/
def onWifiMode (st : MainState) (enable : Bool) : MainState × List Call :=
  let cfg2 := (st.cfg.wifiEnable enable).reload
  ({ st with cfg := cfg2 },
   [Call.serialPrintln ("-->[MAIN] onWifi changed: " ++ boolString enable),
    Call.cfgWifiEnable enable, Call.cfgReload] ++
   (if enable then [] else [Call.wifiStop]))

/-- `MyGUIUserPreferencesCallbacks::onBrightness` (main.cpp lines 51-54). -/
def onBrightness (st : MainState) (value : Int) : MainState × List Call :=
  ({ st with cfg := st.cfg.saveBrightness value },
   [Call.serialPrintln ("-->[MAIN] onBrightness changed: " ++ toString value),
    Call.cfgSaveBrightness value])

/-- `MyGUIUserPreferencesCallbacks::onColorsInverted` (main.cpp lines
55-58). -/
def onColorsInverted (st : MainState) (enable : Bool) : MainState × List Call :=
  ({ st with cfg := st.cfg.colorsInvertedEnable enable },
   [Call.serialPrintln ("-->[MAIN] onColorsInverted changed: " ++ boolString enable),
    Call.cfgColorsInvertedEnable enable])

/-- `MyGUIUserPreferencesCallbacks::onSampleTime` (main.cpp lines 59-67):
guarded on `sensors.sample_time != time`; on change it saves, reloads,
refreshes the BLE config characteristic and pushes `cfg.stime` to the
sensor hub. -/
def onSampleTime (st : MainState) (time : Int) : MainState × List Call :=
  if st.sensors.sample_time ≠ time then
    let cfg2 := (st.cfg.saveSampleTime time).reload
    ({ cfg := cfg2, sensors := { st.sensors with sample_time := cfg2.stime } },
     [Call.serialPrintln ("-->[MAIN] onSampleTime changed: " ++ toString time),
      Call.cfgSaveSampleTime time, Call.cfgReload, Call.bleServerConfigRefresh,
      Call.sensorsSetSampleTime cfg2.stime])
  else (st, [])

/-- `MyGUIUserPreferencesCallbacks::onCalibrationReady` (main.cpp lines
68-71): a single recalibration call with the constant 418. -/
def onCalibrationReady (st : MainState) : MainState × List Call :=
  (st,
   [Call.serialPrintln "-->[MAIN] onCalibrationReady",
    Call.sensorsSetCO2RecalibrationFactor 418])

/-- `startingSensors` (main.cpp lines 85-108): configure the sensor hub
(sample time 1 for first use), run hardware detection via `sensors.init`,
and surface the outcome.  The detection outcome is taken from the
environment (`env.pmDetected`), since the sensor library is an external
collaborator. -/
def startingSensors (env : Env) (st : MainState) : MainState × List Call :=
  ({ st with
     sensors := { sample_time := 1, pmSensorConfigured := env.pmDetected } },
   [Call.serialPrintln ("-->[INFO] PM sensor configured: " ++ toString st.cfg.stype),
    Call.guiWelcomeAddMessage "Detected sensor:",
    Call.sensorsSetOnDataCallBack,
    Call.sensorsSetOnErrorCallBack,
    Call.sensorsSetSampleTime 1,
    Call.sensorsSetTempOffset st.cfg.toffset,
    Call.sensorsDetectI2COnly st.cfg.i2conly,
    Call.sensorsSetDebugMode st.cfg.devmode,
    Call.sensorsInit st.cfg.stype] ++
   (if env.pmDetected then
      [Call.serialPrint "-->[INFO] PM/CO2 sensor detected: ",
       Call.serialPrintln env.pmDeviceSelected,
       Call.guiWelcomeAddMessage env.pmDeviceSelected]
    else
      [Call.serialPrintln "-->[INFO] Detection sensors FAIL!",
       Call.guiWelcomeAddMessage "Detection !FAILED!"]))

/-- `setup` (main.cpp lines 114-179): the startup sequence, from config
load through sensor detection and peripheral initialization to the final
sample-time configuration. -/
def setup (env : Env) (st0 : MainState) : MainState × List Call :=
  let cfg1 := st0.cfg.initLoad
  let st1 : MainState := { st0 with cfg := cfg1 }
  let stepSensors := startingSensors env st1
  let st2 := stepSensors.1
  ({ st2 with sensors := { st2.sensors with sample_time := cfg1.stime } },
   [Call.serialBegin 115200,
    Call.delayMs 400,
    Call.serialPrintln "\n== CanAirIO Setup ==\n",
    Call.cfgInit "canairio",
    Call.guiSetBrightness cfg1.brightness,
    Call.guiSetWifiMode cfg1.wifiEnabled,
    Call.guiSetSampleTime cfg1.stime,
    Call.guiDisplayInit,
    Call.guiSetCallbacks,
    Call.guiShowWelcome,
    Call.serialPrintln ("-->[INFO] ESP32MAC: " ++ cfg1.deviceId),
    Call.serialPrintln ("-->[INFO] Revision: " ++ env.firmwareVersionCode),
    Call.serialPrintln ("-->[INFO] Firmware: " ++ env.version),
    Call.serialPrintln ("-->[INFO] Flavor  : " ++ env.flavor),
    Call.serialPrintln ("-->[INFO] Target  : " ++ env.target),
    Call.serialPrintln "-->[INFO] Detecting sensors..",
    Call.pinModeOutput,
    Call.digitalWriteHigh] ++
   stepSensors.2 ++
   [Call.batteryInit,
    Call.wdInit,
    Call.wifiInit,
    Call.bleServerInit,
    Call.guiWelcomeAddMessage "Bluetooth ready.",
    Call.serialPrintln ("-->[INFO] InfluxDb API:\t" ++ boolString cfg1.ifxEnabled),
    Call.guiWelcomeAddMessage ("InfluxDb :" ++ boolString cfg1.ifxEnabled),
    Call.influxDbInit] ++
   (if env.wifiConnected then
      [Call.guiWelcomeAddMessage ("WiFi:" ++ cfg1.ssid)]
    else
      [Call.guiWelcomeAddMessage "WiFi: disabled."]) ++
   [Call.guiWelcomeAddMessage ("stime: " ++ toString cfg1.stime ++ " sec."),
    Call.guiWelcomeAddMessage cfg1.deviceId,
    Call.guiWelcomeAddMessage ("Watchdog:" ++ toString env.watchdogTime),
    Call.guiWelcomeAddMessage "==SETUP READY==",
    Call.delayMs 500,
    Call.guiShowMain] ++
   refreshGUIData env ++
   [Call.delayMs 500,
    Call.sensorsLoop,
    Call.sensorsSetSampleTime cfg1.stime])

/-- `loop` (main.cpp lines 181-192): one iteration of the main scheduler.
The status-flags call passes the live wifi and BLE link state and the
literal `true` for the sensors-ok flag, exactly as the source does. -/
def loop (env : Env) : List Call :=
  [Call.sensorsLoop,
   Call.batteryLoop,
   Call.bleLoop,
   Call.wifiLoop,
   Call.influxDbLoop,
   Call.otaLoop,
   Call.wdLoop,
   Call.guiSetGUIStatusFlags env.wifiConnected true env.bleConnected]

/-- Trace of `n` consecutive iterations of `loop`; the environment may
change between iterations, so iteration `i` observes `envs i`. -/
def runLoop (envs : Nat → Env) : Nat → List Call
  | 0 => []
  | n + 1 => runLoop envs n ++ loop (envs n)

/-- The scheduler steps of §4.2 of the spec, in the spec's vocabulary. -/
inductive Step where
  | sensorPoll
  | batteryPoll
  | bleNotify
  | wifiCheck
  | cloudPublish
  | otaCheck
  | watchdogFeed
  | displayFlags
deriving DecidableEq, Repr

/-- Maps each per-iteration scheduler call of `loop` to its spec-level
step name; calls outside the scheduler vocabulary map to `none`. -/
def Call.stepLabel : Call → Option Step
  | .sensorsLoop => some .sensorPoll
  | .batteryLoop => some .batteryPoll
  | .bleLoop => some .bleNotify
  | .wifiLoop => some .wifiCheck
  | .influxDbLoop => some .cloudPublish
  | .otaLoop => some .otaCheck
  | .wdLoop => some .watchdogFeed
  | .guiSetGUIStatusFlags _ _ _ => some .displayFlags
  | _ => none

/-- ConfigStore persistence calls (the mutators that write a field of the
persisted configuration). -/
def Call.isConfigPersistence : Call → Bool
  | .cfgWifiEnable _ => true
  | .cfgSaveSampleTime _ => true
  | .cfgSaveBrightness _ => true
  | .cfgColorsInvertedEnable _ => true
  | _ => false

/-- Sensor-hub recalibration calls. -/
def Call.isRecalibration : Call → Bool
  | .sensorsSetCO2RecalibrationFactor _ => true
  | _ => false

/-- The sensor-hub calls relevant to sample-time sequencing during setup:
sample-time writes, hardware detection (`sensors.init`) and polls
(`sensors.loop`). -/
def Call.isSensorTiming : Call → Bool
  | .sensorsSetSampleTime _ => true
  | .sensorsInit _ => true
  | .sensorsLoop => true
  | _ => false

/-- The peripheral-initialization calls of the startup sequence: battery,
watchdog arm, WiFi, config server (BLE), cloud publication. -/
def Call.isPeripheralInit : Call → Bool
  | .batteryInit => true
  | .wdInit => true
  | .wifiInit => true
  | .bleServerInit => true
  | .influxDbInit => true
  | _ => false

/-- Device-reset calls (never emitted by the embedded code; the constant
is here so that their absence is statable). -/
def Call.isReset : Call → Bool
  | .deviceReset => true
  | _ => false

/-- `wifiStop()` calls. -/
def Call.isWifiStop : Call → Bool
  | .wifiStop => true
  | _ => false

/-- Watchdog-feed (`wd.loop()`) calls. -/
def Call.isWatchdogFeed : Call → Bool
  | .wdLoop => true
  | _ => false

/-- A concrete configuration used to instantiate the theorems below on a
closed input. -/
def sampleCfg : ConfigApp :=
  { persistedStime := 5
    persistedWifiEnabled := true
    persistedBrightness := 30
    persistedColorsInverted := false
    stime := 5
    wifiEnabled := true
    brightness := 30
    colorsInverted := false
    toffset := 0
    i2conly := false
    devmode := false
    stype := 0
    deviceId := "AA:BB:CC"
    ssid := "mynet"
    ifxEnabled := true }

/-- A concrete main state with sensor sample time 5. -/
def sampleState : MainState :=
  { cfg := sampleCfg
    sensors := { sample_time := 5, pmSensorConfigured := true } }

/-- A concrete environment: a particulate device (type 2) whose humidity
reading is the unavailable sentinel `0.0`. -/
def sampleEnv : Env :=
  { pm25 := 35
    co2 := 900
    humidity := 0
    temperature := 7
    co2humi := 48
    co2temp := 9
    deviceType := 2
    chargeLevel := 80
    wifiRSSI := -60
    pmDetected := true
    pmDeviceSelected := "PMSX003"
    wifiConnected := true
    bleConnected := false
    firmwareVersionCode := "r010"
    version := "1.0"
    flavor := "D1MINI"
    target := "dev"
    watchdogTime := 600 }

/-- A concrete environment: a CO2 device (type 5) with a live humidity
reading and an unavailable temperature reading. -/
def sampleEnvCO2 : Env :=
  { sampleEnv with
    pm25 := 12
    co2 := 650
    humidity := 3
    temperature := 0
    deviceType := 5 }

/-- A concrete environment in which hardware detection fails. -/
def sampleEnvNoSensor : Env :=
  { sampleEnv with pmDetected := false }

/-- C1: for every sensor reading, the resolved main value equals the pm25
reading when the selected device type is at most 3, and equals the co2
reading when the device type is greater than 3. -/
theorem mainValue_resolution (env : Env) :
    (env.deviceType ≤ 3 → mainValueOf env = env.pm25) ∧
    (3 < env.deviceType → mainValueOf env = env.co2) := by
  constructor
  · intro h
    rw [mainValueOf, if_pos h]
  · intro h
    rw [mainValueOf, if_neg (not_le.mpr h)]

/-- C1 witness: a particulate device (type 2) resolves to pm25 = 35, a CO2
device (type 5) resolves to co2 = 650. -/
theorem mainValue_resolution_witness :
    mainValueOf sampleEnv = sampleEnv.pm25 ∧
    mainValueOf sampleEnvCO2 = sampleEnvCO2.co2 :=
  ⟨(mainValue_resolution sampleEnv).1 (by decide),
   (mainValue_resolution sampleEnvCO2).2 (by decide)⟩

/-- C2: the resolved humidity equals the primary humidity reading when
that reading is nonzero and the co2-derived humidity when it is exactly
zero; the same rule holds for temperature. -/
theorem humidity_temperature_resolution (env : Env) :
    (env.humidity ≠ 0 → resolvedHumidity env = env.humidity) ∧
    (env.humidity = 0 → resolvedHumidity env = env.co2humi) ∧
    (env.temperature ≠ 0 → resolvedTemperature env = env.temperature) ∧
    (env.temperature = 0 → resolvedTemperature env = env.co2temp) := by
  refine ⟨fun h => ?_, fun h => ?_, fun h => ?_, fun h => ?_⟩
  · rw [resolvedHumidity, if_neg h]
  · rw [resolvedHumidity, if_pos h]
  · rw [resolvedTemperature, if_neg h]
  · rw [resolvedTemperature, if_pos h]

/-- C2 witness: with humidity 0 and temperature 7 the resolver substitutes
the co2-derived humidity and keeps the primary temperature; with humidity
3 and temperature 0 it keeps the primary humidity and substitutes the
co2-derived temperature. -/
theorem humidity_temperature_resolution_witness :
    resolvedHumidity sampleEnv = sampleEnv.co2humi ∧
    resolvedTemperature sampleEnv = sampleEnv.temperature ∧
    resolvedHumidity sampleEnvCO2 = sampleEnvCO2.humidity ∧
    resolvedTemperature sampleEnvCO2 = sampleEnvCO2.co2temp :=
  ⟨(humidity_temperature_resolution sampleEnv).2.1 (by decide),
   (humidity_temperature_resolution sampleEnv).2.2.1 (by decide),
   (humidity_temperature_resolution sampleEnvCO2).1 (by decide),
   (humidity_temperature_resolution sampleEnvCO2).2.2.2 (by decide)⟩

/-- C3: a SampleTimeChanged event whose time equals the sensor hub's
current sample time performs no call at all and leaves the state
unchanged. -/
theorem onSampleTime_idempotent (st : MainState) (time : Int)
    (h : st.sensors.sample_time = time) :
    onSampleTime st time = (st, []) := by
  simp [onSampleTime, h]

/-- C3 witness: with current sample time 5, SampleTimeChanged(5) is a
no-op. -/
theorem onSampleTime_idempotent_witness :
    onSampleTime sampleState 5 = (sampleState, []) :=
  onSampleTime_idempotent sampleState 5 (by decide)

/-- C4: a SampleTimeChanged event whose time differs from the sensor
hub's current sample time saves the time, reloads the configuration,
refreshes the BLE config characteristic and finally pushes exactly the
event's time to the sensor hub, in that order. -/
theorem onSampleTime_change (st : MainState) (time : Int)
    (h : st.sensors.sample_time ≠ time) :
    onSampleTime st time =
      ({ cfg := (st.cfg.saveSampleTime time).reload,
         sensors := { st.sensors with sample_time := time } },
       [Call.serialPrintln ("-->[MAIN] onSampleTime changed: " ++ toString time),
        Call.cfgSaveSampleTime time, Call.cfgReload, Call.bleServerConfigRefresh,
        Call.sensorsSetSampleTime time]) := by
  simp [onSampleTime, h, ConfigApp.saveSampleTime, ConfigApp.reload]

/-- C4 witness: with current sample time 5, SampleTimeChanged(10) saves,
reloads, refreshes and sets the hub sample time to 10. -/
theorem onSampleTime_change_witness :
    onSampleTime sampleState 10 =
      ({ cfg := (sampleState.cfg.saveSampleTime 10).reload,
         sensors := { sampleState.sensors with sample_time := 10 } },
       [Call.serialPrintln ("-->[MAIN] onSampleTime changed: " ++ toString (10 : Int)),
        Call.cfgSaveSampleTime 10, Call.cfgReload, Call.bleServerConfigRefresh,
        Call.sensorsSetSampleTime 10]) :=
  onSampleTime_change sampleState 10 (by decide)

/-- C5: a WifiToggled event persists the flag, then reloads, and emits a
single `wifiStop()` strictly afterwards exactly when disabling; enabling
emits no `wifiStop()`. -/
theorem onWifiMode_trace (st : MainState) (enable : Bool) :
    (onWifiMode st enable).2 =
      [Call.serialPrintln ("-->[MAIN] onWifi changed: " ++ boolString enable),
       Call.cfgWifiEnable enable, Call.cfgReload] ++
      (if enable then [] else [Call.wifiStop]) ∧
    (onWifiMode st enable).1.cfg = (st.cfg.wifiEnable enable).reload ∧
    (onWifiMode st false).2.filter Call.isWifiStop = [Call.wifiStop] ∧
    (onWifiMode st true).2.filter Call.isWifiStop = [] := by
  refine ⟨rfl, rfl, ?_, ?_⟩ <;> simp [onWifiMode, Call.isWifiStop]

/-- C6: a CalibrationRequested event performs exactly one recalibration
call, with the constant 418, independently of the current state, performs
no ConfigStore persistence, and leaves the state unchanged. -/
theorem onCalibrationReady_once (st : MainState) :
    (onCalibrationReady st).2.filter Call.isRecalibration =
      [Call.sensorsSetCO2RecalibrationFactor 418] ∧
    (onCalibrationReady st).2.filter Call.isConfigPersistence = [] ∧
    (onCalibrationReady st).1 = st ∧
    ∀ st2 : MainState, (onCalibrationReady st).2 = (onCalibrationReady st2).2 := by
  refine ⟨?_, ?_, rfl, fun st2 => rfl⟩ <;>
    simp [onCalibrationReady, Call.isRecalibration, Call.isConfigPersistence]

/-- C7: each iteration of the main loop performs exactly the fixed step
sequence sensor poll, battery poll, config-server notify, WiFi check,
cloud publish, firmware-update check, watchdog feed, display status-flags
update; across any number of iterations the step trace is that sequence
repeated verbatim, and the watchdog is fed exactly once per iteration. -/
theorem scheduler_fixed_order (envs : Nat → Env) (n : Nat) :
    (∀ e : Env, (loop e).filterMap Call.stepLabel =
      [Step.sensorPoll, Step.batteryPoll, Step.bleNotify, Step.wifiCheck,
       Step.cloudPublish, Step.otaCheck, Step.watchdogFeed, Step.displayFlags]) ∧
    (runLoop envs n).filterMap Call.stepLabel =
      (List.replicate n [Step.sensorPoll, Step.batteryPoll, Step.bleNotify,
        Step.wifiCheck, Step.cloudPublish, Step.otaCheck, Step.watchdogFeed,
        Step.displayFlags]).flatten ∧
    ((runLoop envs n).filter Call.isWatchdogFeed).length = n := by
  refine ⟨fun e => by simp [loop, Call.stepLabel], ?_, ?_⟩
  · induction n with
    | zero => simp [runLoop]
    | succ k ih =>
        rw [runLoop, List.filterMap_append, ih, List.replicate_succ']
        simp [loop, Call.stepLabel]
  · induction n with
    | zero => simp [runLoop]
    | succ k ih =>
        rw [runLoop, List.filter_append, List.length_append, ih]
        simp [loop, Call.isWatchdogFeed]

/-- C8: when hardware detection fails, startup surfaces the failure
message to the display, still performs every remaining peripheral
initialization (battery, watchdog arm, WiFi, config server, cloud
publication), reaches the main screen, and emits no device reset. -/
theorem setup_detection_failure_nonfatal (env : Env) (st0 : MainState)
    (h : env.pmDetected = false) :
    Call.guiWelcomeAddMessage "Detection !FAILED!" ∈ (setup env st0).2 ∧
    Call.guiShowMain ∈ (setup env st0).2 ∧
    (setup env st0).2.filter Call.isPeripheralInit =
      [Call.batteryInit, Call.wdInit, Call.wifiInit, Call.bleServerInit,
       Call.influxDbInit] ∧
    (setup env st0).2.filter Call.isReset = [] := by
  cases hw : env.wifiConnected <;>
    simp [setup, startingSensors, refreshGUIData, h, hw,
      Call.isPeripheralInit, Call.isReset]

/-- C8 witness: a concrete run with failed detection surfaces the failure
message, completes every peripheral initialization, and never resets. -/
theorem setup_detection_failure_nonfatal_witness :
    Call.guiWelcomeAddMessage "Detection !FAILED!" ∈
      (setup sampleEnvNoSensor sampleState).2 ∧
    Call.guiShowMain ∈ (setup sampleEnvNoSensor sampleState).2 ∧
    (setup sampleEnvNoSensor sampleState).2.filter Call.isPeripheralInit =
      [Call.batteryInit, Call.wdInit, Call.wifiInit, Call.bleServerInit,
       Call.influxDbInit] ∧
    (setup sampleEnvNoSensor sampleState).2.filter Call.isReset = [] :=
  setup_detection_failure_nonfatal sampleEnvNoSensor sampleState (by decide)

/-- C9: in every loop iteration the sensors-ok argument of the display
status-flags call is the literal `true`, while the wifi and BLE flags are
the live link state. -/
theorem loop_sensorsOk_constant_true (env : Env) :
    Call.guiSetGUIStatusFlags env.wifiConnected true env.bleConnected ∈ loop env ∧
    ∀ w s b : Bool, Call.guiSetGUIStatusFlags w s b ∈ loop env → s = true := by
  constructor
  · simp [loop]
  · intro w s b hmem
    simp [loop] at hmem
    exact hmem.2.1

/-- C9 witness: in a concrete iteration the status-flags call is present
and carries `true` as its sensors-ok argument. -/
theorem loop_sensorsOk_constant_true_witness :
    Call.guiSetGUIStatusFlags sampleEnv.wifiConnected true sampleEnv.bleConnected
      ∈ loop sampleEnv ∧ true = true :=
  ⟨(loop_sensorsOk_constant_true sampleEnv).1,
   (loop_sensorsOk_constant_true sampleEnv).2 true true false (by decide)⟩

/-- C10: during startup the sensor hub's sample time is set to 1 before
hardware detection, the persisted sample time is applied only as the very
last step of setup, after the first sensor poll, and hence the final state
carries the persisted sample time. -/
theorem setup_sample_time_sequencing (env : Env) (st0 : MainState) :
    (setup env st0).2.filter Call.isSensorTiming =
      [Call.sensorsSetSampleTime 1, Call.sensorsInit st0.cfg.stype,
       Call.sensorsLoop, Call.sensorsSetSampleTime st0.cfg.persistedStime] ∧
    (setup env st0).2.getLast? =
      some (Call.sensorsSetSampleTime st0.cfg.persistedStime) ∧
    (setup env st0).1.sensors.sample_time = st0.cfg.persistedStime := by
  refine ⟨?_, ?_, ?_⟩
  · cases hp : env.pmDetected <;> cases hw : env.wifiConnected <;>
      simp [setup, startingSensors, refreshGUIData, ConfigApp.initLoad,
        Call.isSensorTiming, hp, hw]
  · cases hp : env.pmDetected <;> cases hw : env.wifiConnected <;>
      simp [setup, startingSensors, refreshGUIData, ConfigApp.initLoad,
        List.getLast?, hp, hw]
  · simp [setup, startingSensors, ConfigApp.initLoad]

end CanAirIO
